import Mathlib

/-!
Shallow embedding of the earthquake-damage-ml repository
(src/preprocess.py, src/dataset.py, src/modeling/train.py,
src/modeling/predict.py).

A pandas DataFrame is modelled as a header of ordered column names plus
positional rows; a cell is `none` for a missing value (NaN).  Fallible
operations return `Except`.  External library behaviour that the code calls
into (pandas `get_dummies`, `merge`, the `DataFrame` constructor, sklearn and
imbalanced-learn) is embedded at the level of its documented input/output
contract on the inputs the repository feeds it.
-/

/-- A scalar cell value of a table: numeric or categorical (string). -/
inductive Val where
  | int (n : Int)
  | str (s : String)
deriving DecidableEq, Repr

/-- A table cell; `none` models a missing value (NaN). -/
abbrev Cell := Option Val

/-- A pandas DataFrame: ordered column names and positional rows. -/
structure Table where
  cols : List String
  rows : List (List Cell)
deriving DecidableEq, Repr

/-- The Python int `0` cell, the filler value used by the preprocessing code. -/
def zeroCell : Cell := some (Val.int 0)

/-- Association lookup of the first pair carrying the given key. -/
def lookupBy {β : Type} (c : String) : List (String × β) → Option β
  | [] => none
  | (k, v) :: t => if c = k then some v else lookupBy c t

/-- Value of row `r` (laid out along `cols`) at column `c`;
`none` when the column is absent. -/
def rowCell (cols : List String) (r : List Cell) (c : String) : Option Cell :=
  lookupBy c (cols.zip r)

/-- Distinct elements keeping the first occurrence of each, a deterministic
stand-in for iterating a Python `set` of column names. -/
def dedupFirst : List String → List String
  | [] => []
  | a :: t => a :: (dedupFirst t).filter (fun b => decide (b ≠ a))

/-- `set(train_df.columns) - set(test_df.columns)` (preprocess.py line 24);
CPython iterates the set in an arbitrary order, determinized here to
first-encounter order. -/
def missingCols (train_df test_df : Table) : List String :=
  dedupFirst (train_df.cols.filter (fun c => decide (c ∉ test_df.cols)))

/-- The loop `for c in missing_cols: test_df[c] = 0`
(preprocess.py lines 25-26): the candidate table after the in-place column
assignments, each appending a new column filled with `0`. -/
def addMissingAsZero (train_df test_df : Table) : Table :=
  ⟨test_df.cols ++ missingCols train_df test_df,
   test_df.rows.map (fun r => r ++ (missingCols train_df test_df).map (fun _ => zeroCell))⟩

/-- One row of the column selection `df[names]`: for each requested name,
the row's value at the first column of that name. -/
def selectColsRow (names srcCols : List String) (r : List Cell) : List Cell :=
  names.map (fun c => (rowCell srcCols r c).getD none)

/-- One row of `DataFrame.reindex(columns=names, fill_value=0)`: requested
columns in order, a missing one filled with `0`. -/
def reindexRow (names srcCols : List String) (r : List Cell) : List Cell :=
  names.map (fun c => (rowCell srcCols r c).getD zeroCell)

/-- `align_features` (preprocess.py lines 22-27): adds each reference column
missing from the candidate, filled with `0` (mutating the caller's
`test_df`), then returns the selection `test_df[train_df.columns]`. -/
def align_features (train_df test_df : Table) : Table :=
  ⟨train_df.cols,
   (addMissingAsZero train_df test_df).rows.map
     (selectColsRow train_df.cols (addMissingAsZero train_df test_df).cols)⟩

/-- The caller's `test_df` object after `align_features` returns: the
in-place assignments `test_df[c] = 0` persist in the argument. -/
def align_features_mutated (train_df test_df : Table) : Table :=
  addMissingAsZero train_df test_df

/-- Byte-wise (code point) lexicographic order on character data,
matching Python string comparison. -/
def strListLe (a b : List Char) : Bool :=
  match a, b with
  | [], _ => true
  | _ :: _, [] => false
  | x :: xs, y :: ys =>
      if x.toNat < y.toNat then true
      else if y.toNat < x.toNat then false
      else strListLe xs ys

/-- Lexicographic order on strings by code points. -/
def strLe (a b : String) : Bool := strListLe a.data b.data

/-- Ordered insertion for the ascending sort of category values. -/
def insertStr (a : String) : List String → List String
  | [] => [a]
  | b :: t => if strLe a b then a :: b :: t else b :: insertStr a t

/-- Ascending sort, as `pd.get_dummies` sorts each column's category values
(its `Categorical` levels are the sorted uniques). -/
def sortStrs : List String → List String
  | [] => []
  | a :: t => insertStr a (sortStrs t)

/-- Whether a cell holds a categorical (string) value. -/
def cellIsStr : Cell → Bool
  | some (Val.str _) => true
  | _ => false

/-- A column is encoded by `pd.get_dummies` when it has object dtype;
modelled as holding at least one string value. -/
def isCategoricalCol (col : List Cell) : Bool := col.any cellIsStr

/-- Distinct category strings of a column in first-encounter order
(a missing value gets no dummy column). -/
def catValues (col : List Cell) : List String :=
  dedupFirst (col.filterMap (fun x =>
    match x with
    | some (Val.str s) => some s
    | _ => none))

/-- The `i`-th column of a table as a list of cells. -/
def Table.columnAt (t : Table) (i : Nat) : List Cell :=
  t.rows.map (fun r => r.getD i none)

/-- `pd.get_dummies` output name for source column `c` and category value
`v` (separator `_`). -/
def dummyName (c v : String) : String := c ++ "_" ++ v

/-- Indices of the columns `pd.get_dummies` passes through unchanged. -/
def passIdx (df : Table) : List Nat :=
  (List.range df.cols.length).filter (fun i => !isCategoricalCol (df.columnAt i))

/-- Indices of the columns `pd.get_dummies` encodes. -/
def catIdx (df : Table) : List Nat :=
  (List.range df.cols.length).filter (fun i => isCategoricalCol (df.columnAt i))

/-- Names of the indicator columns generated for source column `i`. -/
def dummyColNames (df : Table) (i : Nat) : List String :=
  (sortStrs (catValues (df.columnAt i))).map (dummyName (df.cols.getD i ""))

/-- Indicator cells of one row for source column `i`. -/
def dummyRowCells (df : Table) (i : Nat) (r : List Cell) : List Cell :=
  (sortStrs (catValues (df.columnAt i))).map
    (fun v => if r.getD i none = some (Val.str v) then some (Val.int 1) else some (Val.int 0))

/-- `one_hot_encode` (preprocess.py lines 12-14), i.e. `pd.get_dummies(df)`:
non-categorical columns pass through first, in their original order; then one
indicator group per categorical column taken left-to-right, with the
category values sorted ascending inside each group. -/
def one_hot_encode (df : Table) : Table :=
  ⟨(passIdx df).map (fun i => df.cols.getD i "") ++ (catIdx df).flatMap (dummyColNames df),
   df.rows.map (fun r =>
     (passIdx df).map (fun i => r.getD i none) ++
     (catIdx df).flatMap (fun i => dummyRowCells df i r))⟩

/-- Follows the spec's words, for comparison with `one_hot_encode`: output
columns in the order category values are first encountered scanning the
input columns left-to-right. -/
def specEncounterCols (df : Table) : List String :=
  (List.range df.cols.length).flatMap (fun i =>
    if isCategoricalCol (df.columnAt i) then
      (catValues (df.columnAt i)).map (dummyName (df.cols.getD i ""))
    else [df.cols.getD i ""])

/-- The Boolean mask `df[column] <= threshold` at one row: true exactly for a
present numeric value at or below the threshold (NaN compares false). -/
def passesThreshold (cols : List String) (column : String) (threshold : Int)
    (r : List Cell) : Bool :=
  match rowCell cols r column with
  | some (some (Val.int v)) => decide (v ≤ threshold)
  | _ => false

/-- `remove_outliers` (preprocess.py lines 30-32): `df[df[column] <= threshold]`. -/
def remove_outliers (df : Table) (column : String) (threshold : Int) : Table :=
  ⟨df.cols, df.rows.filter (passesThreshold df.cols column threshold)⟩

/-- The error surface of the preprocessing step: the opaque `ValueError`
raised inside the oversampling library, and the `InsufficientSamplesError`
the specification's error taxonomy calls for. -/
inductive PreprocessError where
  | libraryValueError (msg : String)
  | insufficientSamplesError
deriving DecidableEq, Repr

deriving instance DecidableEq for Except

/-- The `k_neighbors` default of the SMOTE library. -/
def smoteKNeighbors : Nat := 5

/-- Row count of the most frequent class. -/
def maxClassCount (y : List Int) : Nat :=
  (y.dedup.map (fun c => y.count c)).foldl max 0

/-- First feature row whose label is `c` (used as the abstract synthetic row). -/
def firstRowOfClass (x : List (List Int)) (y : List Int) (c : Int) : List Int :=
  match (x.zip y).find? (fun p => decide (p.2 = c)) with
  | some p => p.1
  | none => []

/-- Modelled from the spec: `SMOTE(random_state=...).fit_resample`, the
external oversampling library call (the library is not part of this
repository).  It oversamples every minority class up to the majority class's
row count, and raises an opaque library `ValueError` when a resampled class
has fewer members than `k_neighbors + 1`, the neighbour count it requires.
The contents of the synthetic rows (seed-controlled interpolations between
same-class neighbours) are abstracted as copies of the class's first row;
the spec constrains only the resulting class counts. -/
def smoteFitResample (x : List (List Int)) (y : List Int) (k : Nat) :
    Except PreprocessError (List (List Int) × List Int) :=
  if y.dedup.all (fun c =>
      decide (y.count c = maxClassCount y) || decide (k + 1 ≤ y.count c)) then
    Except.ok
      (x ++ y.dedup.flatMap (fun c =>
         List.replicate (maxClassCount y - y.count c) (firstRowOfClass x y c)),
       y ++ y.dedup.flatMap (fun c =>
         List.replicate (maxClassCount y - y.count c) c))
  else
    Except.error (PreprocessError.libraryValueError "Expected n_neighbors <= n_samples_fit")

/-- `smote_oversample` (preprocess.py lines 35-39): a direct call to
`SMOTE(random_state=42).fit_resample` with the library default
`k_neighbors = 5`; no exception handling or error translation wraps the
library call anywhere in the repository. -/
def smote_oversample (x_train : List (List Int)) (y_train : List Int) :
    Except PreprocessError (List (List Int) × List Int) :=
  smoteFitResample x_train y_train smoteKNeighbors

/-- Columns contributed by the right table of a merge (all but the join key). -/
def rightOnlyCols (right : Table) (j : String) : List String :=
  right.cols.filter (fun c => decide (c ≠ j))

/-- Right rows whose join-key value equals that of the left row `lr`. -/
def matchesOf (right : Table) (j : String) (leftCols : List String)
    (lr : List Cell) : List (List Cell) :=
  right.rows.filter (fun rr => decide (rowCell right.cols rr j = rowCell leftCols lr j))

/-- Rows a pandas left outer join emits for one left row: a single
null-padded row when no right row matches its key, otherwise one row per
matching right row. -/
def mergeEmit (right : Table) (j : String) (leftCols : List String)
    (lr : List Cell) : List (List Cell) :=
  if matchesOf right j leftCols lr = [] then
    [lr ++ (rightOnlyCols right j).map (fun _ => (none : Cell))]
  else
    (matchesOf right j leftCols lr).map (fun rr =>
      lr ++ (rightOnlyCols right j).map (fun c => (rowCell right.cols rr c).getD none))

/-- pandas `left.merge(right, on=j, how="left")` as used in dataset.py:
left rows in order, each fanned out over its key matches (the repository's
two call sites share no non-join column between the merged tables, so no
suffixing of overlapping names is modelled). -/
def leftMerge (left right : Table) (j : String) : Table :=
  ⟨left.cols ++ rightOnlyCols right j,
   left.rows.flatMap (mergeEmit right j left.cols)⟩

/-- `build_competition_tables` (dataset.py lines 66-80):
`train.merge(labels, on="building_id", how="left")`, test returned unchanged. -/
def build_competition_tables (train labels test : Table) : Table × Table :=
  (leftMerge train labels "building_id", test)

/-- `build_original_table` (dataset.py lines 83-95):
`structure.merge(owner, on="building_id", how="left")`. -/
def build_original_table (structure_df owner : Table) : Table :=
  leftMerge structure_df owner "building_id"

/-- A trained model as `create_submission` sees it: a `predict` method and
the optional `feature_names_in_` attribute sklearn estimators expose. -/
structure FittedModel where
  predict : Table → List Int
  feature_names_in_ : Option (List String)

/-- The submission-format template, read with `index_col="building_id"`:
its row identifiers and its (non-index) column names; its cell values are
never consulted. -/
structure SubmissionTemplate where
  index : List Int
  cols : List String
deriving DecidableEq, Repr

/-- The written submission frame: identifiers, column names, predictions. -/
structure Submission where
  index : List Int
  cols : List String
  values : List Int
deriving DecidableEq, Repr

/-- Failure of the submission construction: the pandas `DataFrame`
constructor rejects data whose shape disagrees with the supplied index and
columns, the event the spec names `SchemaMismatchError`. -/
inductive PredictError where
  | schemaMismatchError
deriving DecidableEq, Repr

/-- `DataFrame.reindex(columns=names, fill_value=0)`: exactly the requested
columns in order, a missing one filled with `0`, extras dropped. -/
def reindexColumns (t : Table) (names : List String) : Table :=
  ⟨names, t.rows.map (reindexRow names t.cols)⟩

/-- The feature table `create_submission` passes to `model.predict`
(predict.py lines 40-44): one-hot encoded test values, reindexed to the
model's stored feature names when that attribute is present. -/
def submissionFeatures (model : FittedModel) (test_values : Table) : Table :=
  match model.feature_names_in_ with
  | some names => reindexColumns (one_hot_encode test_values) names
  | none => one_hot_encode test_values

/-- `create_submission` (predict.py lines 16-58): predicts on the prepared
features and builds
`pd.DataFrame(data=predictions, columns=template.columns, index=template.index)`;
the constructor rejects the frame when the 1-D prediction vector's length
differs from the template's row count (or the template does not have exactly
one non-index column for the 1-D data to fill). -/
def create_submission (model : FittedModel) (test_values : Table)
    (template : SubmissionTemplate) : Except PredictError Submission :=
  if (model.predict (submissionFeatures model test_values)).length = template.index.length ∧
      template.cols.length = 1 then
    Except.ok ⟨template.index, template.cols,
      model.predict (submissionFeatures model test_values)⟩
  else
    Except.error PredictError.schemaMismatchError

/-- A hyperparameter mapping (Python dict of keyword hyperparameters). -/
abbrev HParams := List (String × Int)

/-- The Python value that ends up bound to `RandomForestClassifier`'s first
positional parameter `n_estimators`. -/
inductive RFNEst where
  | nat (n : Nat)
  | noneVal
  | dict (d : HParams)
deriving DecidableEq, Repr

/-- A constructed `RandomForestClassifier`: whatever was bound to
`n_estimators` plus the hyperparameters set through keywords. -/
structure RandomForestClassifierModel where
  n_estimators : RFNEst
  keywordParams : HParams
deriving DecidableEq, Repr

/-- The sklearn library default for `n_estimators`. -/
def rfDefaultNEstimators : RFNEst := RFNEst.nat 100

/-- A constructed `StandardScaler`. -/
structure StandardScalerModel where
  with_mean : Bool
  with_std : Bool
deriving DecidableEq, Repr

/-- The classifier stage of a constructed pipeline. -/
inductive ClassifierStage where
  | rf (c : RandomForestClassifierModel)
deriving DecidableEq, Repr

/-- An untrained two-stage `make_pipeline(scaler, classifier)` object. -/
structure PipelineModel where
  scaler : StandardScalerModel
  classifier : ClassifierStage
deriving DecidableEq, Repr

/-- `build_rf_pipeline` (train.py lines 22-40):
`make_pipeline(StandardScaler(with_mean=False), RandomForestClassifier(rf_params))`.
The whole mapping (or `None`) is passed positionally, so it binds to the
first parameter `n_estimators`; no keyword hyperparameters are set and
construction itself performs no training or validation. -/
def build_rf_pipeline (rf_params : Option HParams) : PipelineModel :=
  ⟨⟨false, true⟩,
   ClassifierStage.rf
     ⟨match rf_params with
       | none => RFNEst.noneVal
       | some d => RFNEst.dict d,
      []⟩⟩

/-- Failure during pipeline construction. -/
inductive BuildError where
  | typeError (msg : String)
deriving DecidableEq, Repr

/-- `build_xgboost_pipeline` (train.py lines 43-61):
`XGBClassifier(xgboost_params)` hands a positional argument to
`XGBClassifier.__init__`, which is keyword-only (xgboost since 1.0), so the
call raises `TypeError` before any pipeline object exists. -/
def build_xgboost_pipeline (xgboost_params : Option HParams) :
    Except BuildError PipelineModel :=
  Except.error (BuildError.typeError "XGBClassifier does not accept positional arguments")

/-- Reference table for the alignment witnesses: one column of the candidate
is absent from it and one of its columns is absent from the candidate. -/
def trainW : Table :=
  ⟨["building_id", "geo", "roof_a"],
   [[some (Val.int 1), some (Val.int 5), some (Val.int 0)]]⟩

/-- Candidate table for the alignment witnesses. -/
def testW : Table :=
  ⟨["building_id", "junk", "geo"],
   [[some (Val.int 2), some (Val.str "z"), some (Val.int 6)],
    [some (Val.int 3), some (Val.str "w"), some (Val.int 8)]]⟩

/-- Two-row single-column categorical frame whose values arrive in
descending order, separating sorted from first-encounter column order. -/
def dfC4 : Table :=
  ⟨["x"], [[some (Val.str "b")], [some (Val.str "a")]]⟩

/-- Feature rows for the oversampling failure case. -/
def xC5 : List (List Int) :=
  [[0], [1], [2], [3], [4], [5], [10], [11]]

/-- Labels with a majority class of six rows and a minority class of two
rows, fewer than the six samples the neighbour search needs. -/
def yC5 : List Int := [1, 1, 1, 1, 1, 1, 2, 2]

/-- A fitted model for the submission witness: predicts `1` for every row
and stores no feature names. -/
def modelC6 : FittedModel :=
  ⟨fun t => t.rows.map (fun _ => 1), none⟩

/-- Test values for the submission witness. -/
def tvC6 : Table := ⟨["a"], [[some (Val.int 4)]]⟩

/-- A one-column, one-row submission template. -/
def tmplC6 : SubmissionTemplate := ⟨[7], ["damage_grade"]⟩

/-- Table with a passing row, a missing value, and an outlier row. -/
def dfC8 : Table :=
  ⟨["damage", "building_id"],
   [[some (Val.int 5), some (Val.int 1)],
    [none, some (Val.int 2)],
    [some (Val.int 50), some (Val.int 3)]]⟩

/-- Left table for the merge witness (key 2 has no match on the right). -/
def leftC9 : Table :=
  ⟨["building_id", "f"],
   [[some (Val.int 1), some (Val.int 10)], [some (Val.int 2), some (Val.int 20)]]⟩

/-- Right table for the merge witness (key 1 occurs twice: fan-out). -/
def rightC9 : Table :=
  ⟨["building_id", "g"],
   [[some (Val.int 1), some (Val.int 100)], [some (Val.int 1), some (Val.int 101)]]⟩

theorem lookupBy_zip_self_map {β : Type} (f : String → β) (l : List String) (c : String)
    (h : c ∈ l) : lookupBy c (l.zip (l.map f)) = some (f c) := by
  induction l with
  | nil => cases h
  | cons a t ih =>
      rcases List.mem_cons.mp h with h1 | h2
      · subst h1
        simp [lookupBy]
      · by_cases hc : c = a
        · subst hc
          simp [lookupBy]
        · simpa [lookupBy, hc] using ih h2

theorem rowCell_map (f : String → Cell) (l : List String) (c : String) (h : c ∈ l) :
    rowCell l (l.map f) c = some (f c) :=
  lookupBy_zip_self_map f l c h

theorem lookupBy_zip_not_mem {β : Type} (l : List String) (r : List β) (c : String)
    (h : c ∉ l) : lookupBy c (l.zip r) = none := by
  induction l generalizing r with
  | nil => simp [lookupBy]
  | cons a t ih =>
      cases r with
      | nil => simp [lookupBy]
      | cons b rt =>
          have hca : c ≠ a := by
            intro hc
            exact h (hc ▸ List.mem_cons_self a t)
          simpa [lookupBy, hca] using ih rt (fun hm => h (List.mem_cons_of_mem a hm))

theorem lookupBy_append_of_none {β : Type} (l1 l2 : List (String × β)) (c : String)
    (h : lookupBy c l1 = none) : lookupBy c (l1 ++ l2) = lookupBy c l2 := by
  induction l1 with
  | nil => simp
  | cons p t ih =>
      obtain ⟨k, v⟩ := p
      by_cases hc : c = k
      · subst hc
        simp [lookupBy] at h
      · simp only [lookupBy, if_neg hc] at h
        simpa [lookupBy, hc] using ih h

theorem mem_dedupFirst (a : String) (l : List String) : a ∈ dedupFirst l ↔ a ∈ l := by
  induction l with
  | nil => simp [dedupFirst]
  | cons b t ih =>
      by_cases hab : a = b
      · subst hab
        simp [dedupFirst]
      · simp [dedupFirst, List.mem_filter, hab, ih]

theorem selectColsRow_map_self (l : List String) (f : String → Cell) :
    selectColsRow l l (l.map f) = l.map f := by
  unfold selectColsRow
  apply List.map_congr_left
  intro c hc
  simp [rowCell_map f l c hc]

theorem selectColsRow_idem (refCols srcCols : List String) (r : List Cell) :
    selectColsRow refCols refCols (selectColsRow refCols srcCols r) =
      selectColsRow refCols srcCols r :=
  selectColsRow_map_self refCols (fun c => (rowCell srcCols r c).getD none)

theorem align_features_eq (train_df T : Table) :
    align_features train_df T =
      ⟨train_df.cols, (addMissingAsZero train_df T).rows.map
        (selectColsRow train_df.cols (addMissingAsZero train_df T).cols)⟩ := rfl

theorem missingCols_eq_nil_of_cols_eq (train_df T : Table) (h : T.cols = train_df.cols) :
    missingCols train_df T = [] := by
  unfold missingCols
  have hfil : train_df.cols.filter (fun c => decide (c ∉ T.cols)) = [] := by
    apply List.filter_eq_nil_iff.mpr
    intro a ha
    simp [h, ha]
  rw [hfil]
  rfl

theorem addMissingAsZero_of_nil (train_df T : Table) (h : missingCols train_df T = []) :
    addMissingAsZero train_df T = T := by
  unfold addMissingAsZero
  rw [h]
  simp

/-- C2: schema alignment is idempotent — aligning the output of
`align_features` against the same reference table returns it unchanged. -/
theorem C2_align_idempotent (train_df test_df : Table) :
    align_features train_df (align_features train_df test_df) =
      align_features train_df test_df := by
  have h1 : addMissingAsZero train_df (align_features train_df test_df) =
      align_features train_df test_df :=
    addMissingAsZero_of_nil _ _ (missingCols_eq_nil_of_cols_eq _ _ rfl)
  rw [align_features_eq train_df (align_features train_df test_df), h1]
  show (⟨train_df.cols,
      ((addMissingAsZero train_df test_df).rows.map
        (selectColsRow train_df.cols (addMissingAsZero train_df test_df).cols)).map
        (selectColsRow train_df.cols train_df.cols)⟩ : Table) =
    align_features train_df test_df
  rw [List.map_map, align_features_eq train_df test_df]
  simp only [Table.mk.injEq]
  refine ⟨trivial, ?_⟩
  apply List.map_congr_left
  intro r hr
  show selectColsRow train_df.cols train_df.cols
      (selectColsRow train_df.cols (addMissingAsZero train_df test_df).cols r) =
    selectColsRow train_df.cols (addMissingAsZero train_df test_df).cols r
  exact selectColsRow_idem _ _ _

/-- C1: `align_features train_df test_df` carries exactly `train_df`'s
columns in `train_df`'s order; a reference column absent from the candidate
is filled entirely with `0`, and a candidate column outside the reference
schema does not appear. -/
theorem C1_align_schema_exact (train_df test_df : Table) (c d : String)
    (hwf : ∀ r ∈ test_df.rows, r.length = test_df.cols.length)
    (hc1 : c ∈ train_df.cols) (hc2 : c ∉ test_df.cols)
    (hd1 : d ∈ test_df.cols) (hd2 : d ∉ train_df.cols) :
    (align_features train_df test_df).cols = train_df.cols ∧
    d ∉ (align_features train_df test_df).cols ∧
    ∀ r ∈ (align_features train_df test_df).rows,
      rowCell (align_features train_df test_df).cols r c = some zeroCell := by
  refine ⟨rfl, hd2, ?_⟩
  intro r hr
  have hr2 : r ∈ (addMissingAsZero train_df test_df).rows.map
      (selectColsRow train_df.cols (addMissingAsZero train_df test_df).cols) := hr
  obtain ⟨r0, hr0, rfl⟩ := List.mem_map.mp hr2
  have hr0b : r0 ∈ test_df.rows.map
      (fun rr => rr ++ (missingCols train_df test_df).map (fun _ => zeroCell)) := hr0
  obtain ⟨r1, hr1, rfl⟩ := List.mem_map.mp hr0b
  have hcmem : c ∈ missingCols train_df test_df :=
    (mem_dedupFirst _ _).mpr (List.mem_filter.mpr ⟨hc1, by simp [hc2]⟩)
  have hkey : rowCell (addMissingAsZero train_df test_df).cols
      (r1 ++ (missingCols train_df test_df).map (fun _ => zeroCell)) c = some zeroCell := by
    show lookupBy c ((test_df.cols ++ missingCols train_df test_df).zip
      (r1 ++ (missingCols train_df test_df).map (fun _ => zeroCell))) = some zeroCell
    rw [List.zip_append (hwf r1 hr1).symm,
      lookupBy_append_of_none _ _ _ (lookupBy_zip_not_mem _ _ _ hc2)]
    exact lookupBy_zip_self_map _ _ _ hcmem
  have step1 : rowCell train_df.cols
      (selectColsRow train_df.cols (addMissingAsZero train_df test_df).cols
        (r1 ++ (missingCols train_df test_df).map (fun _ => zeroCell))) c =
      some ((rowCell (addMissingAsZero train_df test_df).cols
        (r1 ++ (missingCols train_df test_df).map (fun _ => zeroCell)) c).getD none) :=
    rowCell_map _ train_df.cols c hc1
  show rowCell train_df.cols
      (selectColsRow train_df.cols (addMissingAsZero train_df test_df).cols
        (r1 ++ (missingCols train_df test_df).map (fun _ => zeroCell))) c = some zeroCell
  rw [step1, hkey]
  rfl

/-- Witness for C1 at concrete tables: `roof_a` is in the reference but not
the candidate, `junk` is in the candidate but not the reference. -/
theorem C1_align_schema_exact_witness :
    ((∀ r ∈ testW.rows, r.length = testW.cols.length) ∧
      "roof_a" ∈ trainW.cols ∧ "roof_a" ∉ testW.cols ∧
      "junk" ∈ testW.cols ∧ "junk" ∉ trainW.cols) ∧
    ((align_features trainW testW).cols = trainW.cols ∧
      "junk" ∉ (align_features trainW testW).cols ∧
      ∀ r ∈ (align_features trainW testW).rows,
        rowCell (align_features trainW testW).cols r "roof_a" = some zeroCell) :=
  ⟨by decide,
   C1_align_schema_exact trainW testW "roof_a" "junk"
     (by decide) (by decide) (by decide) (by decide) (by decide)⟩

/-- C3 fails as stated: at these concrete tables the caller's candidate
table is not the same after `align_features` — it has gained the missing
reference column. -/
theorem C3_align_mutates_counterexample :
    align_features_mutated trainW testW ≠ testW := by decide

/-- C3 amended: `align_features` adds the filler columns to the caller's
`test_df` in place (appending each missing reference column filled with
`0`); the candidate is left unchanged exactly when no reference column is
missing from it. -/
theorem C3_align_mutates_amended (train_df test_df : Table) :
    (align_features_mutated train_df test_df).cols =
      test_df.cols ++ missingCols train_df test_df ∧
    (align_features_mutated train_df test_df = test_df ↔
      missingCols train_df test_df = []) := by
  refine ⟨rfl, ?_, ?_⟩
  · intro h
    have hc : test_df.cols ++ missingCols train_df test_df = test_df.cols :=
      congrArg Table.cols h
    have hl := congrArg List.length hc
    simp only [List.length_append] at hl
    exact List.eq_nil_of_length_eq_zero (by omega)
  · intro h
    exact addMissingAsZero_of_nil _ _ h

theorem mem_insertStr (a b : String) (l : List String) :
    a ∈ insertStr b l ↔ a = b ∨ a ∈ l := by
  induction l with
  | nil => simp [insertStr]
  | cons x t ih =>
      unfold insertStr
      by_cases h : strLe b x
      · simp [h]
      · simp only [if_neg h, List.mem_cons, ih]
        tauto

theorem mem_sortStrs (a : String) (l : List String) : a ∈ sortStrs l ↔ a ∈ l := by
  induction l with
  | nil => simp [sortStrs]
  | cons x t ih => simp [sortStrs, mem_insertStr, ih]

/-- C4 fails as stated: on a single categorical column whose values arrive
as `b` then `a`, the code emits the dummy columns in sorted order
`[x_a, x_b]`, not the first-encounter order `[x_b, x_a]` the claim requires. -/
theorem C4_encoding_order_counterexample :
    (one_hot_encode dfC4).cols = ["x_a", "x_b"] ∧
    specEncounterCols dfC4 = ["x_b", "x_a"] ∧
    (one_hot_encode dfC4).cols ≠ specEncounterCols dfC4 := by decide

/-- C4 amended: output column names are a deterministic function of source
column and category value alone (`column ++ "_" ++ value`), so every
category value observed in a categorical column yields that column name in
the output; but the ordering is pass-through columns first, then one sorted
group of category values per categorical column left-to-right — not the
order in which values are first encountered. -/
theorem C4_encoding_naming_amended (df : Table) (i : Nat) (v : String)
    (hi : i < df.cols.length)
    (hcat : isCategoricalCol (df.columnAt i) = true)
    (hv : v ∈ catValues (df.columnAt i)) :
    dummyName (df.cols.getD i "") v ∈ (one_hot_encode df).cols := by
  show dummyName (df.cols.getD i "") v ∈
    (passIdx df).map (fun i => df.cols.getD i "") ++ (catIdx df).flatMap (dummyColNames df)
  apply List.mem_append_right
  apply List.mem_flatMap.mpr
  refine ⟨i, ?_, ?_⟩
  · exact List.mem_filter.mpr ⟨List.mem_range.mpr hi, hcat⟩
  · exact List.mem_map_of_mem _ ((mem_sortStrs _ _).mpr hv)

/-- Witness for the amended C4 at the concrete frame `dfC4`. -/
theorem C4_encoding_naming_amended_witness :
    (0 < dfC4.cols.length ∧ isCategoricalCol (dfC4.columnAt 0) = true ∧
      "a" ∈ catValues (dfC4.columnAt 0)) ∧
    dummyName "x" "a" ∈ (one_hot_encode dfC4).cols :=
  ⟨by decide, C4_encoding_naming_amended dfC4 0 "a" (by decide) (by decide) (by decide)⟩

/-- C5: the code propagates the oversampling library's opaque `ValueError`
when a minority class is smaller than the required neighbour count — it
never raises the `InsufficientSamplesError` the claim describes (no such
handling exists anywhere in the repository). -/
theorem C5_smote_propagates_library_error :
    smote_oversample xC5 yC5 =
      Except.error (PreprocessError.libraryValueError "Expected n_neighbors <= n_samples_fit") ∧
    smote_oversample xC5 yC5 ≠ Except.error PreprocessError.insufficientSamplesError := by
  constructor
  · rfl
  · decide

/-- C6: `create_submission` fails with the schema-mismatch error exactly
when the prediction count differs from the template's row count; on success
the submission copies the template's row identifiers and column names and
carries the predictions as values. -/
theorem C6_create_submission_schema (model : FittedModel) (test_values : Table)
    (template : SubmissionTemplate) (hcols : template.cols.length = 1) :
    (create_submission model test_values template =
        Except.error PredictError.schemaMismatchError ↔
      (model.predict (submissionFeatures model test_values)).length ≠
        template.index.length) ∧
    ∀ sub, create_submission model test_values template = Except.ok sub →
      sub.index = template.index ∧ sub.cols = template.cols ∧
      sub.values = model.predict (submissionFeatures model test_values) := by
  unfold create_submission
  by_cases h : (model.predict (submissionFeatures model test_values)).length =
      template.index.length
  · rw [if_pos ⟨h, hcols⟩]
    constructor
    · simp [h]
    · intro sub hsub
      injection hsub with h2
      rw [← h2]
      exact ⟨rfl, rfl, rfl⟩
  · rw [if_neg (fun hand => h hand.1)]
    constructor
    · simp [h]
    · intro sub hsub
      cases hsub

/-- Witness for C6 at a concrete constant model and one-row template. -/
theorem C6_create_submission_schema_witness :
    (tmplC6.cols.length = 1) ∧
    ((create_submission modelC6 tvC6 tmplC6 =
        Except.error PredictError.schemaMismatchError ↔
      (modelC6.predict (submissionFeatures modelC6 tvC6)).length ≠
        tmplC6.index.length) ∧
    ∀ sub, create_submission modelC6 tvC6 tmplC6 = Except.ok sub →
      sub.index = tmplC6.index ∧ sub.cols = tmplC6.cols ∧
      sub.values = modelC6.predict (submissionFeatures modelC6 tvC6)) :=
  ⟨by decide, C6_create_submission_schema modelC6 tvC6 tmplC6 (by decide)⟩

/-- C7: the builders do construct a two-stage pipeline with mean-centering
disabled and do no training, but the hyperparameter mapping never configures
the classifier — `RandomForestClassifier(rf_params)` binds the whole dict
(or `None`) to the positional `n_estimators` parameter, so an absent mapping
yields `n_estimators=None` instead of the library default, and
`XGBClassifier(xgboost_params)` raises `TypeError` outright. -/
theorem C7_pipeline_params_misbound :
    (build_rf_pipeline none).scaler = ⟨false, true⟩ ∧
    (build_rf_pipeline none).classifier = ClassifierStage.rf ⟨RFNEst.noneVal, []⟩ ∧
    RFNEst.noneVal ≠ rfDefaultNEstimators ∧
    (build_rf_pipeline (some [("n_estimators", (10 : Int))])).classifier =
      ClassifierStage.rf ⟨RFNEst.dict [("n_estimators", 10)], []⟩ ∧
    RFNEst.dict [("n_estimators", 10)] ≠ RFNEst.nat 10 ∧
    build_xgboost_pipeline (some [("max_depth", (3 : Int))]) =
      Except.error (BuildError.typeError "XGBClassifier does not accept positional arguments") := by
  exact ⟨rfl, rfl, by decide, rfl, by decide, rfl⟩

theorem passesThreshold_iff (cols : List String) (c : String) (t : Int) (r : List Cell) :
    passesThreshold cols c t r = true ↔
      ∃ v : Int, rowCell cols r c = some (some (Val.int v)) ∧ v ≤ t := by
  unfold passesThreshold
  cases hx : rowCell cols r c with
  | none => simp
  | some x =>
      cases x with
      | none => simp
      | some v0 =>
          cases v0 with
          | int v => simp
          | str s => simp

/-- C8: `remove_outliers` keeps exactly the rows whose value in the filtered
column is a present numeric value at or below the threshold (inclusive), as
a filter: row order is preserved and the result is never longer than the
input.  The typing hypothesis confines the statement to numeric-or-missing
columns, the only ones on which the pandas comparison is defined. -/
theorem C8_remove_outliers_filter (df : Table) (c : String) (t : Int)
    (hc : c ∈ df.cols)
    (htyped : ∀ r ∈ df.rows, cellIsStr ((rowCell df.cols r c).getD none) = false) :
    (∀ r, r ∈ (remove_outliers df c t).rows ↔
      r ∈ df.rows ∧ ∃ v : Int, rowCell df.cols r c = some (some (Val.int v)) ∧ v ≤ t) ∧
    (remove_outliers df c t).rows.Sublist df.rows ∧
    (remove_outliers df c t).rows.length ≤ df.rows.length ∧
    (remove_outliers df c t).cols = df.cols := by
  refine ⟨?_, List.filter_sublist _, List.length_filter_le _ _, rfl⟩
  intro r
  show r ∈ df.rows.filter (passesThreshold df.cols c t) ↔ _
  rw [List.mem_filter, passesThreshold_iff]

/-- Witness for C8 at a concrete table with a passing row, a missing value,
and an outlier. -/
theorem C8_remove_outliers_filter_witness :
    ("damage" ∈ dfC8.cols ∧
      ∀ r ∈ dfC8.rows, cellIsStr ((rowCell dfC8.cols r "damage").getD none) = false) ∧
    ((∀ r, r ∈ (remove_outliers dfC8 "damage" 10).rows ↔
        r ∈ dfC8.rows ∧
        ∃ v : Int, rowCell dfC8.cols r "damage" = some (some (Val.int v)) ∧ v ≤ 10) ∧
      (remove_outliers dfC8 "damage" 10).rows.Sublist dfC8.rows ∧
      (remove_outliers dfC8 "damage" 10).rows.length ≤ dfC8.rows.length ∧
      (remove_outliers dfC8 "damage" 10).cols = dfC8.cols) :=
  ⟨⟨by decide, by decide⟩,
   C8_remove_outliers_filter dfC8 "damage" 10 (by decide) (by decide)⟩

/-- C10: every row surviving `remove_outliers` has a present (non-missing)
value in the filtered column — the NaN-compares-false mask drops every row
whose value there is missing. -/
theorem C10_remove_outliers_drops_missing (df : Table) (c : String) (t : Int)
    (r : List Cell) (hr : r ∈ (remove_outliers df c t).rows) :
    ∃ v : Val, rowCell df.cols r c = some (some v) := by
  have hrf : r ∈ df.rows.filter (passesThreshold df.cols c t) := hr
  have h2 := (List.mem_filter.mp hrf).2
  rw [passesThreshold_iff] at h2
  obtain ⟨v, hv, _⟩ := h2
  exact ⟨Val.int v, hv⟩

/-- Witness for C10: the surviving row of the concrete table has a present
value in the filtered column. -/
theorem C10_remove_outliers_drops_missing_witness :
    ([some (Val.int 5), some (Val.int 1)] ∈ (remove_outliers dfC8 "damage" 10).rows) ∧
    ∃ v : Val, rowCell dfC8.cols [some (Val.int 5), some (Val.int 1)] "damage" =
      some (some v) :=
  ⟨by decide, C10_remove_outliers_drops_missing dfC8 "damage" 10 _ (by decide)⟩

theorem mergeEmit_length (right : Table) (j : String) (leftCols : List String)
    (lr : List Cell) :
    (mergeEmit right j leftCols lr).length =
      max 1 (matchesOf right j leftCols lr).length := by
  unfold mergeEmit
  by_cases h : matchesOf right j leftCols lr = []
  · rw [if_pos h, h]
    rfl
  · have h1 : 1 ≤ (matchesOf right j leftCols lr).length := List.length_pos.mpr h
    rw [if_neg h, List.length_map, Nat.max_eq_right h1]

theorem leftMerge_rows_length (left right : Table) (j : String) :
    (leftMerge left right j).rows.length =
      (left.rows.map (fun lr => max 1 (matchesOf right j left.cols lr).length)).sum := by
  show (left.rows.flatMap (mergeEmit right j left.cols)).length = _
  rw [List.length_flatMap]
  congr 1
  apply List.map_congr_left
  intro lr _
  exact mergeEmit_length right j left.cols lr

theorem length_le_sum_of_one_le (l : List (List Cell)) (f : List Cell → Nat)
    (h : ∀ a ∈ l, 1 ≤ f a) : l.length ≤ (l.map f).sum := by
  induction l with
  | nil => simp
  | cons a t ih =>
      simp only [List.map_cons, List.sum_cons, List.length_cons]
      have h1 := h a (List.mem_cons_self a t)
      have h2 := ih (fun b hb => h b (List.mem_cons_of_mem a hb))
      omega

theorem mergeEmit_shape (right : Table) (j : String) (leftCols : List String)
    (lr : List Cell) :
    ∀ x ∈ mergeEmit right j leftCols lr, ∃ ext, x = lr ++ ext := by
  intro x hx
  unfold mergeEmit at hx
  by_cases h : matchesOf right j leftCols lr = []
  · rw [if_pos h] at hx
    simp only [List.mem_singleton] at hx
    exact ⟨_, hx⟩
  · rw [if_neg h] at hx
    obtain ⟨rr, _, rfl⟩ := List.mem_map.mp hx
    exact ⟨_, rfl⟩

theorem mergeEmit_ne_nil (right : Table) (j : String) (leftCols : List String)
    (lr : List Cell) : mergeEmit right j leftCols lr ≠ [] := by
  unfold mergeEmit
  by_cases h : matchesOf right j leftCols lr = []
  · rw [if_pos h]
    simp
  · rw [if_neg h]
    simpa [List.map_eq_nil_iff] using h

/-- C9: the merges of `build_competition_tables` and `build_original_table`
are the left outer join on `building_id`: the result is at least as long as
the left table, every left row survives as a prefix of at least one output
row, an unmatched left row is padded with nulls across the right-only
columns, and the output is the left rows in order, each repeated once per
matching right row (and once when there is no match). -/
theorem C9_left_merge_join (L R T : Table)
    (hwf : ∀ r ∈ L.rows, r.length = L.cols.length) :
    (build_competition_tables L R T).1 = leftMerge L R "building_id" ∧
    build_original_table L R = leftMerge L R "building_id" ∧
    (leftMerge L R "building_id").rows.length =
      (L.rows.map (fun lr => max 1 (matchesOf R "building_id" L.cols lr).length)).sum ∧
    L.rows.length ≤ (leftMerge L R "building_id").rows.length ∧
    (∀ lr ∈ L.rows, ∃ ext, lr ++ ext ∈ (leftMerge L R "building_id").rows) ∧
    (∀ lr ∈ L.rows, matchesOf R "building_id" L.cols lr = [] →
      lr ++ List.replicate (rightOnlyCols R "building_id").length (none : Cell) ∈
        (leftMerge L R "building_id").rows) ∧
    (leftMerge L R "building_id").rows.map (List.take L.cols.length) =
      L.rows.flatMap (fun lr =>
        List.replicate (max 1 (matchesOf R "building_id" L.cols lr).length) lr) := by
  refine ⟨rfl, rfl, leftMerge_rows_length L R _, ?_, ?_, ?_, ?_⟩
  · rw [leftMerge_rows_length]
    exact length_le_sum_of_one_le _ _ (fun a _ => Nat.le_max_left 1 _)
  · intro lr hlr
    obtain ⟨x, hx⟩ :=
      List.exists_mem_of_ne_nil _ (mergeEmit_ne_nil R "building_id" L.cols lr)
    obtain ⟨ext, rfl⟩ := mergeEmit_shape R "building_id" L.cols lr x hx
    exact ⟨ext, List.mem_flatMap.mpr ⟨lr, hlr, hx⟩⟩
  · intro lr hlr hm
    apply List.mem_flatMap.mpr
    refine ⟨lr, hlr, ?_⟩
    unfold mergeEmit
    rw [if_pos hm, List.map_const']
    exact List.mem_singleton.mpr rfl
  · show (L.rows.flatMap (mergeEmit R "building_id" L.cols)).map (List.take L.cols.length) = _
    rw [List.map_flatMap]
    apply List.flatMap_congr
    intro lr hlr
    unfold mergeEmit
    by_cases h : matchesOf R "building_id" L.cols lr = []
    · rw [if_pos h, h]
      simp only [List.map_cons, List.map_nil]
      rw [← hwf lr hlr, List.take_left]
      rfl
    · rw [if_neg h, List.map_map,
        Nat.max_eq_right (List.length_pos.mpr h)]
      have hconst : ∀ rr ∈ matchesOf R "building_id" L.cols lr,
          (List.take L.cols.length ∘ (fun rr => lr ++ (rightOnlyCols R "building_id").map
            (fun c => (rowCell R.cols rr c).getD none))) rr = lr := by
        intro rr _
        show List.take L.cols.length (lr ++ _) = lr
        rw [← hwf lr hlr, List.take_left]
      rw [List.map_congr_left hconst, List.map_const']

/-- Witness for C9 at concrete tables exhibiting both fan-out (key 1 matches
twice) and an unmatched left row (key 2). -/
theorem C9_left_merge_join_witness :
    (∀ r ∈ leftC9.rows, r.length = leftC9.cols.length) ∧
    ((build_competition_tables leftC9 rightC9 leftC9).1 =
        leftMerge leftC9 rightC9 "building_id" ∧
      build_original_table leftC9 rightC9 = leftMerge leftC9 rightC9 "building_id" ∧
      (leftMerge leftC9 rightC9 "building_id").rows.length =
        (leftC9.rows.map
          (fun lr => max 1 (matchesOf rightC9 "building_id" leftC9.cols lr).length)).sum ∧
      leftC9.rows.length ≤ (leftMerge leftC9 rightC9 "building_id").rows.length ∧
      (∀ lr ∈ leftC9.rows, ∃ ext,
        lr ++ ext ∈ (leftMerge leftC9 rightC9 "building_id").rows) ∧
      (∀ lr ∈ leftC9.rows, matchesOf rightC9 "building_id" leftC9.cols lr = [] →
        lr ++ List.replicate (rightOnlyCols rightC9 "building_id").length (none : Cell) ∈
          (leftMerge leftC9 rightC9 "building_id").rows) ∧
      (leftMerge leftC9 rightC9 "building_id").rows.map (List.take leftC9.cols.length) =
        leftC9.rows.flatMap (fun lr =>
          List.replicate
            (max 1 (matchesOf rightC9 "building_id" leftC9.cols lr).length) lr)) :=
  ⟨by decide, C9_left_merge_join leftC9 rightC9 leftC9 (by decide)⟩
